import Mathlib

/-!
Shallow embedding of the difficulty-retarget estimator in
`src/backend/src/api/difficulty-adjustment.ts`.

Modelling conventions:
- JavaScript numbers are modelled as rationals (`ℚ`); block heights, which the
  code only ever treats as integers, are modelled as `ℤ`.
- JavaScript `BigInt` values (the decoded full targets) are modelled as `ℕ`
  (they are non-negative everywhere in this code); `BigInt` shifts become
  division/multiplication by powers of two, and `BigInt` division is Euclidean
  division on `ℕ`, which matches `BigInt` truncation on non-negative operands.
- `throw new Error(...)` paths are modelled with `Except Unit`; a JavaScript
  `RangeError` from `BigInt` division by zero is likewise an `Except.error`.
- The 32-bit coercions in `bits >>> 24` and `bits & 0x...` (JS `ToUint32` /
  `ToInt32`) are modelled with explicit `% 2 ^ 32` / `% 2 ^ 23` arithmetic on
  the non-negative integer value of `bits`.
- The module-level `blocks` cache read by `calcDifficultyAdjustment` and by the
  API wrapper is passed explicitly as a `List Blk` (oldest first), and the
  wrapper's global reads are gathered in a `ProviderState` record.
-/

/-- JavaScript `String.prototype.toLowerCase()` restricted to the ASCII
characters that the network identifiers use: lower-case every character. -/
def jsToLowerCase (s : String) : String := String.mk (s.data.map Char.toLower)

/-- `getActivationHeight(network)`: 115000 for the mainnet family
(`'mainnet'`/`'main'` after lower-casing), 0 for every other network. -/
def getActivationHeight (network : String) : ℤ :=
  if jsToLowerCase network = "mainnet" ∨ jsToLowerCase network = "main" then 115000 else 0

/-- `const BLOCK_SECONDS_TARGET = 60`. -/
def BLOCK_SECONDS_TARGET : ℚ := 60

/-- `const TESTNET_MAX_BLOCK_SECONDS = 1200`. -/
def TESTNET_MAX_BLOCK_SECONDS : ℚ := 1200

/-- `compactToTarget(bits)`: decode a compact ("bits") target to a full target.
Throws on non-integer or non-positive input, on the sign bit (bit 23 of the
low 32 bits) being set, and on a zero mantissa; otherwise shifts the 23-bit
mantissa by the byte distance between the exponent byte and 3. -/
def compactToTarget (bits : ℚ) : Except Unit ℕ :=
  if bits.den ≠ 1 ∨ bits ≤ 0 then .error ()
  else
    let b : ℕ := bits.num.toNat
    let exp : ℕ := (b % 2 ^ 32) / 2 ^ 24
    let mant : ℕ := b % 2 ^ 23
    if (b / 2 ^ 23) % 2 = 1 ∨ mant = 0 then .error ()
    else if exp ≤ 3 then .ok (mant / 2 ^ (8 * (3 - exp)))
    else .ok (mant * 2 ^ (8 * (exp - 3)))

/-- `pctChangeFromBits(oldBits, newBits)`: percentage change in difficulty with
a 1,000,000-scale fixed-point ratio. `BigInt` division by a zero target throws
(JS `RangeError`), modelled as an `Except.error`. -/
def pctChangeFromBits (oldBits newBits : ℚ) : Except Unit ℚ :=
  match compactToTarget oldBits, compactToTarget newBits with
  | .ok oldT, .ok newT =>
    if newT = 0 then .error ()
    else
      let ratioFp : ℕ := oldT * 1000000 / newT
      .ok (((ratioFp : ℚ) / 1000000 - 1) * 100)
  | .error e, _ => .error e
  | _, .error e => .error e

/-- The `DifficultyAdjustment` result record (all numeric fields kept as ℚ). -/
structure DifficultyAdjustment where
  progressPercent : ℚ
  difficultyChange : ℚ
  estimatedRetargetDate : ℚ
  remainingBlocks : ℚ
  remainingTime : ℚ
  previousRetarget : ℚ
  previousTime : ℚ
  nextRetargetHeight : ℚ
  timeAvg : ℚ
  adjustedTimeAvg : ℚ
  timeOffset : ℚ
  expectedBlocks : ℚ
deriving Repr, DecidableEq

/-- The legacy clamp: `if (dc > 300) dc = 300; if (dc < -75) dc = -75;`. -/
def clampLegacy (x : ℚ) : ℚ :=
  if x > 300 then 300 else if x < -75 then -75 else x

/-- `const DIGI_MAX_UP = 33.34`. -/
def DIGI_MAX_UP : ℚ := 33.34

/-- `const DIGI_MAX_DOWN = -33.34`. -/
def DIGI_MAX_DOWN : ℚ := -33.34

/-- The Digishield clamp: `Math.max(Math.min(raw, DIGI_MAX_UP), DIGI_MAX_DOWN)`. -/
def clampDigishield (x : ℚ) : ℚ := max (min x DIGI_MAX_UP) DIGI_MAX_DOWN

/-- `const EPOCH_BLOCK_LENGTH = 1` (legacy branch). -/
def EPOCH_BLOCK_LENGTH : ℤ := 1

/-- `blockHeight >= 0 ? blockHeight % EPOCH_BLOCK_LENGTH : 0`. -/
def legacyBlocksInEpoch (blockHeight : ℤ) : ℤ :=
  if 0 ≤ blockHeight then blockHeight % EPOCH_BLOCK_LENGTH else 0

/-- `blocksInEpoch ? diffSeconds / blocksInEpoch : BLOCK_SECONDS_TARGET`
(JS numeric truthiness: any nonzero count selects the division). -/
def legacyTimeAvgSecs (diffSeconds : ℚ) (blocksInEpoch : ℤ) : ℚ :=
  if blocksInEpoch ≠ 0 then diffSeconds / (blocksInEpoch : ℚ) else BLOCK_SECONDS_TARGET

/-- `(blocksInEpoch === 2015 ? latestBlockTimestamp : nowSeconds) - DATime`. -/
def legacyActualTimespan (DATime nowSeconds latestBlockTimestamp : ℚ)
    (blocksInEpoch : ℤ) : ℚ :=
  (if blocksInEpoch = 2015 then latestBlockTimestamp else nowSeconds) - DATime

/-- The pre-activation (legacy) branch of `calcDifficultyAdjustment`. -/
def legacySnapshot (DATime : ℚ) (quarterEpochTime : Option ℚ) (nowSeconds : ℚ)
    (blockHeight : ℤ) (previousRetarget : ℚ) (network : String)
    (latestBlockTimestamp : ℚ) : DifficultyAdjustment :=
  let diffSeconds : ℚ := max 0 (nowSeconds - DATime)
  let blocksInEpoch : ℤ := legacyBlocksInEpoch blockHeight
  let progressPercent : ℚ :=
    if 0 ≤ blockHeight then ((blocksInEpoch : ℚ) / (EPOCH_BLOCK_LENGTH : ℚ)) * 100 else 100
  let remainingBlocks : ℤ := EPOCH_BLOCK_LENGTH - blocksInEpoch
  let nextRetargetHeight : ℤ := if 0 ≤ blockHeight then blockHeight + remainingBlocks else 0
  let expectedBlocks : ℚ := diffSeconds / BLOCK_SECONDS_TARGET
  let actualTimespan : ℚ :=
    legacyActualTimespan DATime nowSeconds latestBlockTimestamp blocksInEpoch
  let timeAvgSecs0 : ℚ := legacyTimeAvgSecs diffSeconds blocksInEpoch
  let smoothed : ℚ × ℚ :=
    if quarterEpochTime.getD 0 ≠ 0 ∧ blocksInEpoch < 503 then
      let timeLastEpoch := DATime - quarterEpochTime.getD 0
      let adjustedTimeLastEpoch := timeLastEpoch * (1 + previousRetarget / 100)
      let adjustedTimeSpan := diffSeconds + adjustedTimeLastEpoch
      (adjustedTimeSpan / 503,
       (BLOCK_SECONDS_TARGET / (adjustedTimeSpan / 504) - 1) * 100)
    else
      (timeAvgSecs0,
       (BLOCK_SECONDS_TARGET / (actualTimespan / ((blocksInEpoch : ℚ) + 1)) - 1) * 100)
  let adjustedTimeAvgSecs : ℚ := smoothed.1
  let difficultyChange : ℚ := clampLegacy smoothed.2
  let timeAvgSecs : ℚ :=
    if jsToLowerCase network = "testnet" ∧ timeAvgSecs0 > TESTNET_MAX_BLOCK_SECONDS then
      TESTNET_MAX_BLOCK_SECONDS
    else timeAvgSecs0
  let secondsSinceLastBlock : ℚ := nowSeconds - latestBlockTimestamp
  let timeOffset : ℚ :=
    if jsToLowerCase network = "testnet" ∧
        secondsSinceLastBlock + timeAvgSecs > TESTNET_MAX_BLOCK_SECONDS then
      -(min secondsSinceLastBlock TESTNET_MAX_BLOCK_SECONDS) * 1000
    else 0
  let timeAvg : ℤ := ⌊timeAvgSecs * 1000⌋
  let adjustedTimeAvg : ℤ := ⌊adjustedTimeAvgSecs * 1000⌋
  let remainingTime : ℚ := (remainingBlocks : ℚ) * (adjustedTimeAvg : ℚ)
  let estimatedRetargetDate : ℚ := remainingTime + nowSeconds * 1000
  { progressPercent := progressPercent
    difficultyChange := difficultyChange
    estimatedRetargetDate := estimatedRetargetDate
    remainingBlocks := (remainingBlocks : ℚ)
    remainingTime := remainingTime
    previousRetarget := previousRetarget
    previousTime := DATime
    nextRetargetHeight := (nextRetargetHeight : ℚ)
    timeAvg := (timeAvg : ℚ)
    adjustedTimeAvg := (adjustedTimeAvg : ℚ)
    timeOffset := timeOffset
    expectedBlocks := expectedBlocks }

/-- The post-activation (Digishield per-block) branch of
`calcDifficultyAdjustment`, with the already-clamped per-block change. -/
def digishieldSnapshot (DATime nowSeconds : ℚ) (blockHeight : ℤ)
    (previousRetarget latestBlockTimestamp perBlockChange : ℚ) : DifficultyAdjustment :=
  let timeAvgSecsRaw : ℚ := max 1 (nowSeconds - latestBlockTimestamp)
  let timeAvgSecs : ℚ := if timeAvgSecsRaw = 0 then BLOCK_SECONDS_TARGET else timeAvgSecsRaw
  let adjustedTimeAvgSecs : ℚ := BLOCK_SECONDS_TARGET
  let timeAvg : ℤ := ⌊timeAvgSecs * 1000⌋
  let adjustedTimeAvg : ℤ := ⌊adjustedTimeAvgSecs * 1000⌋
  let remainingTime : ℚ := (adjustedTimeAvg : ℚ)
  let estimatedRetargetDate : ℚ := nowSeconds * 1000 + remainingTime
  { progressPercent := 100
    difficultyChange := perBlockChange
    estimatedRetargetDate := estimatedRetargetDate
    remainingBlocks := 1
    remainingTime := remainingTime
    previousRetarget := previousRetarget
    previousTime := DATime
    nextRetargetHeight := ((blockHeight : ℚ) + 1)
    timeAvg := (timeAvg : ℚ)
    adjustedTimeAvg := (adjustedTimeAvg : ℚ)
    timeOffset := 0
    expectedBlocks := 1 }

/-- One entry of the recent-blocks cache: the fields the estimator reads. -/
structure Blk where
  bits : ℚ
  timestamp : ℚ
deriving Repr, DecidableEq

/-- `calcDifficultyAdjustment(...)`, with the module-level recent-blocks cache
passed explicitly (oldest first; `cache[cache.length-1]` is
`blocksCache.reverse.get? 0`, `cache[cache.length-2]` is
`blocksCache.reverse.get? 1`). -/
def calcDifficultyAdjustment (DATime : ℚ) (quarterEpochTime : Option ℚ)
    (nowSeconds : ℚ) (blockHeight : ℤ) (previousRetarget : ℚ) (network : String)
    (latestBlockTimestamp : ℚ) (blocksCache : List Blk) :
    Except Unit DifficultyAdjustment :=
  if blockHeight < getActivationHeight network then
    .ok (legacySnapshot DATime quarterEpochTime nowSeconds blockHeight
          previousRetarget network latestBlockTimestamp)
  else
    match blocksCache.reverse.get? 0, blocksCache.reverse.get? 1 with
    | some latestB, some prevB =>
      match pctChangeFromBits prevB.bits latestB.bits with
      | .error e => .error e
      | .ok raw =>
        .ok (digishieldSnapshot DATime nowSeconds blockHeight previousRetarget
              latestBlockTimestamp (clampDigishield raw))
    | _, _ =>
      .ok (digishieldSnapshot DATime nowSeconds blockHeight previousRetarget
            latestBlockTimestamp 0)

/-- Modelled from the spec: the external block-data provider (`blocks` module,
not part of the excerpt) plus the network configuration, as read by the API
wrapper — last difficulty-adjustment time and previous retarget percentage are
"number or absent", the current height may be absent (defaulted to 0 by the
wrapper), the recent-blocks cache is an ordered list, and `nowMs` is the
wall clock `Date.now()`. -/
structure ProviderState where
  lastDifficultyAdjustmentTime : Option ℚ
  previousDifficultyRetarget : Option ℚ
  currentBlockHeight : Option ℤ
  blocksCache : List Blk
  quarterEpochBlockTime : Option ℚ
  nowMs : ℚ
  network : String

/-- `DifficultyAdjustmentApi.getDifficultyAdjustment()`: returns `none` when
the latest block, the last adjustment time, or the previous retarget
percentage is missing; otherwise delegates to `calcDifficultyAdjustment`. -/
def getDifficultyAdjustment (s : ProviderState) :
    Except Unit (Option DifficultyAdjustment) :=
  let blockHeight : ℤ := s.currentBlockHeight.getD 0
  match s.blocksCache.reverse.get? 0, s.lastDifficultyAdjustmentTime,
      s.previousDifficultyRetarget with
  | some latestB, some DATime, some previousRetarget =>
    let nowSeconds : ℚ := (⌊s.nowMs / 1000⌋ : ℤ)
    (calcDifficultyAdjustment DATime s.quarterEpochBlockTime nowSeconds blockHeight
        previousRetarget s.network latestB.timestamp s.blocksCache).map .some
  | _, _, _ => .ok none

/-- Spec-side predicate (from the spec's words): a bits value is malformed when
it is a non-integer, non-positive, has the reserved sign bit set, or has a
zero mantissa. -/
def malformedBits (bits : ℚ) : Prop :=
  bits.den ≠ 1 ∨ bits ≤ 0 ∨ (bits.num.toNat / 2 ^ 23) % 2 = 1 ∨
    bits.num.toNat % 2 ^ 23 = 0

instance (bits : ℚ) : Decidable (malformedBits bits) :=
  inferInstanceAs (Decidable (_ ∨ _ ∨ _ ∨ _))

/-- Spec-side exponent byte of a bits value. -/
def specBitsExponent (bits : ℚ) : ℕ := (bits.num.toNat % 2 ^ 32) / 2 ^ 24

/-- Spec-side 23-bit mantissa of a bits value. -/
def specBitsMantissa (bits : ℚ) : ℕ := bits.num.toNat % 2 ^ 23

/-- Spec-side decoded target: mantissa shifted right by `8 * (3 - exponent)`
bits when the exponent is at most 3, otherwise left by `8 * (exponent - 3)`. -/
def specDecodedTarget (bits : ℚ) : ℕ :=
  if specBitsExponent bits ≤ 3 then
    specBitsMantissa bits / 2 ^ (8 * (3 - specBitsExponent bits))
  else
    specBitsMantissa bits * 2 ^ (8 * (specBitsExponent bits - 3))

/-! ## Helper lemmas -/

theorem clampLegacy_mem (x : ℚ) : -75 ≤ clampLegacy x ∧ clampLegacy x ≤ 300 := by
  unfold clampLegacy
  split_ifs with h1 h2
  · norm_num
  · norm_num
  · push_neg at h1 h2
    exact ⟨h2, h1⟩

theorem clampDigishield_mem (x : ℚ) :
    -33.34 ≤ clampDigishield x ∧ clampDigishield x ≤ 33.34 := by
  unfold clampDigishield DIGI_MAX_UP DIGI_MAX_DOWN
  refine ⟨le_max_right _ _, max_le (min_le_right _ _) (by norm_num)⟩

theorem legacyBlocksInEpoch_eq_zero (blockHeight : ℤ) :
    legacyBlocksInEpoch blockHeight = 0 := by
  unfold legacyBlocksInEpoch EPOCH_BLOCK_LENGTH
  split_ifs <;> simp [Int.emod_one]

/-! ## Claim C5 -/

/-- Claim C5: `compactToTarget` errors exactly on malformed bits (non-integer,
non-positive, sign bit set, zero mantissa), and on every well-formed bits
value returns the mantissa shifted right by `8 * (3 - exponent)` bits when the
exponent is at most 3, otherwise left by `8 * (exponent - 3)` bits. -/
theorem compactToTarget_spec (bits : ℚ) :
    (compactToTarget bits = .error () ↔ malformedBits bits) ∧
    (¬ malformedBits bits → compactToTarget bits = .ok (specDecodedTarget bits)) := by
  have hok : ¬ malformedBits bits → compactToTarget bits = .ok (specDecodedTarget bits) := by
    intro hm
    have hm' := hm
    unfold malformedBits at hm'
    push_neg at hm'
    obtain ⟨hden, hpos, hsign, hmant⟩ := hm'
    simp only [compactToTarget]
    rw [if_neg (by push_neg; exact ⟨hden, by exact hpos⟩)]
    rw [if_neg (by push_neg; exact ⟨hsign, hmant⟩)]
    unfold specDecodedTarget specBitsExponent specBitsMantissa
    split_ifs <;> rfl
  refine ⟨⟨fun he => ?_, fun hm => ?_⟩, hok⟩
  · by_contra hm
    rw [hok hm] at he
    exact Except.noConfusion he
  · have hm' := hm
    unfold malformedBits at hm'
    simp only [compactToTarget]
    by_cases h1 : bits.den ≠ 1 ∨ bits ≤ 0
    · rw [if_pos h1]
    · rw [if_neg h1]
      rcases hm' with h | h | h | h
      · exact absurd (Or.inl h) h1
      · exact absurd (Or.inr h) h1
      · rw [if_pos (Or.inl h)]
      · rw [if_pos (Or.inr h)]

/-- Claim C5 witness: the well-formed value `0x04000002` decodes without error,
to the spec-side shift of its mantissa. -/
theorem compactToTarget_spec_witness :
    ¬ malformedBits 67108866 ∧
      compactToTarget 67108866 = .ok (specDecodedTarget 67108866) :=
  ⟨by decide, (compactToTarget_spec 67108866).2 (by decide)⟩

/-! ## Claim C1 -/

/-- Claim C1 counterexample: `bits = 1` is a valid compact target (positive
integer, sign bit clear, mantissa 1), yet it decodes to the target 0, which is
not strictly positive. -/
theorem compactToTarget_underflow_counterexample :
    ¬ malformedBits 1 ∧ compactToTarget 1 = .ok 0 ∧ ¬ (0 : ℕ) < 0 :=
  ⟨by decide, rfl, by decide⟩

/-- Claim C1 (amended): for every valid compact target whose exponent byte is
at least 3, the decoded full target is strictly positive (for exponents below
3 the right shift can underflow a small mantissa to zero). -/
theorem compactToTarget_pos_of_exponent_ge_three (bits : ℚ)
    (h : ¬ malformedBits bits) (h3 : 3 ≤ specBitsExponent bits) :
    ∃ t, compactToTarget bits = .ok t ∧ 0 < t := by
  have h' := h
  unfold malformedBits at h'
  push_neg at h'
  obtain ⟨hden, hpos, hsign, hmant⟩ := h'
  have hmpos : 0 < bits.num.toNat % 2 ^ 23 := Nat.pos_of_ne_zero hmant
  simp only [compactToTarget]
  rw [if_neg (by push_neg; exact ⟨hden, hpos⟩)]
  rw [if_neg (by push_neg; exact ⟨hsign, hmant⟩)]
  by_cases hle : bits.num.toNat % 2 ^ 32 / 2 ^ 24 ≤ 3
  · rw [if_pos hle]
    have hexp3 : bits.num.toNat % 2 ^ 32 / 2 ^ 24 = 3 :=
      le_antisymm hle (by exact h3)
    refine ⟨_, rfl, ?_⟩
    rw [hexp3]
    simpa using hmpos
  · rw [if_neg hle]
    exact ⟨_, rfl, Nat.mul_pos hmpos (Nat.pos_pow_of_pos _ (by norm_num))⟩

/-- Claim C1 witness: `0x04000002` is valid with exponent 4, and decodes to a
strictly positive target. -/
theorem compactToTarget_pos_witness :
    ¬ malformedBits 67108866 ∧ 3 ≤ specBitsExponent 67108866 ∧
      ∃ t, compactToTarget 67108866 = .ok t ∧ 0 < t :=
  ⟨by decide, by decide,
    compactToTarget_pos_of_exponent_ge_three 67108866 (by decide) (by decide)⟩

/-! ## Claim C8 -/

/-- Claim C8 counterexample: `bits = 1` is a valid compact target, but its
decoded target is 0, so `pctChangeFromBits 1 1` hits the `BigInt` division by
zero and throws instead of returning 0. -/
theorem pctChangeFromBits_self_throws_counterexample :
    ¬ malformedBits 1 ∧ pctChangeFromBits 1 1 = .error () :=
  ⟨by decide, rfl⟩

/-- Claim C8 (amended): for every valid compact target whose decoded full
target is nonzero, the percentage change of the value against itself is
exactly 0 (when the decoded target is zero the division throws instead). -/
theorem pctChangeFromBits_self_eq_zero (bits : ℚ) (t : ℕ)
    (ht : compactToTarget bits = .ok t) (htz : t ≠ 0) :
    pctChangeFromBits bits bits = .ok 0 := by
  simp only [pctChangeFromBits, ht]
  rw [if_neg htz]
  rw [Nat.mul_div_cancel_left 1000000 (Nat.pos_of_ne_zero htz)]
  norm_num

/-- Claim C8 witness: `0x04000002` decodes to the nonzero target 512 and its
self-comparison percentage change is 0. -/
theorem pctChangeFromBits_self_witness :
    compactToTarget 67108866 = .ok 512 ∧ (512 : ℕ) ≠ 0 ∧
      pctChangeFromBits 67108866 67108866 = .ok 0 :=
  ⟨rfl, by decide, pctChangeFromBits_self_eq_zero 67108866 512 rfl (by decide)⟩

/-! ## Claim C9 -/

/-- Claim C9: once `blockHeight` is at least the activation height the result
is per-block-era shaped (progress 100, remaining blocks 1, expected blocks 1,
next retarget height `blockHeight + 1`), and the activation height is 115000
exactly for the mainnet family and 0 for every other network. -/
theorem perBlock_shape_of_activation_le_height (DATime : ℚ)
    (quarterEpochTime : Option ℚ) (nowSeconds : ℚ) (blockHeight : ℤ)
    (previousRetarget : ℚ) (network : String) (latestBlockTimestamp : ℚ)
    (blocksCache : List Blk) (d : DifficultyAdjustment)
    (hge : getActivationHeight network ≤ blockHeight)
    (hd : calcDifficultyAdjustment DATime quarterEpochTime nowSeconds blockHeight
        previousRetarget network latestBlockTimestamp blocksCache = .ok d) :
    d.progressPercent = 100 ∧ d.remainingBlocks = 1 ∧ d.expectedBlocks = 1 ∧
      d.nextRetargetHeight = (blockHeight : ℚ) + 1 ∧
      getActivationHeight network =
        (if jsToLowerCase network = "mainnet" ∨ jsToLowerCase network = "main"
          then 115000 else 0) := by
  unfold calcDifficultyAdjustment at hd
  rw [if_neg (not_lt.mpr hge)] at hd
  split at hd
  all_goals try (rw [Except.ok.injEq] at hd; subst hd; exact ⟨rfl, rfl, rfl, rfl, rfl⟩)
  split at hd
  all_goals try (rw [Except.ok.injEq] at hd; subst hd; exact ⟨rfl, rfl, rfl, rfl, rfl⟩)
  exact Except.noConfusion hd

/-! ## Claim C3 -/

/-- Claim C3: every snapshot's `timeOffset` is at most 0, and it is exactly 0
whenever the network string does not lower-case to `"testnet"`. -/
theorem timeOffset_nonpos_and_zero_off_testnet (DATime : ℚ)
    (quarterEpochTime : Option ℚ) (nowSeconds : ℚ) (blockHeight : ℤ)
    (previousRetarget : ℚ) (network : String) (latestBlockTimestamp : ℚ)
    (blocksCache : List Blk) (d : DifficultyAdjustment)
    (hd : calcDifficultyAdjustment DATime quarterEpochTime nowSeconds blockHeight
        previousRetarget network latestBlockTimestamp blocksCache = .ok d) :
    d.timeOffset ≤ 0 ∧ (jsToLowerCase network ≠ "testnet" → d.timeOffset = 0) := by
  unfold calcDifficultyAdjustment at hd
  by_cases hlt : blockHeight < getActivationHeight network
  · rw [if_pos hlt, Except.ok.injEq] at hd
    subst hd
    constructor
    · simp only [legacySnapshot]
      split_ifs with h1 h2 h3
      · have hs : 0 < nowSeconds - latestBlockTimestamp := by
          have := h2.2; linarith
        have hmin : 0 < min (nowSeconds - latestBlockTimestamp) TESTNET_MAX_BLOCK_SECONDS :=
          lt_min hs (by norm_num [TESTNET_MAX_BLOCK_SECONDS])
        nlinarith
      · norm_num
      · have ht0 : legacyTimeAvgSecs (max 0 (nowSeconds - DATime))
            (legacyBlocksInEpoch blockHeight) ≤ TESTNET_MAX_BLOCK_SECONDS := by
          by_contra hgt
          push_neg at hgt
          exact h1 ⟨h3.1, hgt⟩
        have hs : 0 < nowSeconds - latestBlockTimestamp := by
          have := h3.2; linarith
        have hmin : 0 < min (nowSeconds - latestBlockTimestamp) TESTNET_MAX_BLOCK_SECONDS :=
          lt_min hs (by norm_num [TESTNET_MAX_BLOCK_SECONDS])
        nlinarith
      · norm_num
    · intro hne
      simp only [legacySnapshot]
      rw [if_neg (fun hc => hne hc.1)]
  · rw [if_neg hlt] at hd
    split at hd
    all_goals try (rw [Except.ok.injEq] at hd; subst hd; exact ⟨le_refl 0, fun _ => rfl⟩)
    split at hd
    all_goals try (rw [Except.ok.injEq] at hd; subst hd; exact ⟨le_refl 0, fun _ => rfl⟩)
    exact Except.noConfusion hd

/-! ## Claim C4 -/

/-- Claim C4: the snapshot's difficulty change is clamped into `[-75, 300]` in
the legacy (pre-activation) era and into `[-33.34, 33.34]` in the per-block
era. -/
theorem difficultyChange_clamped_by_era (DATime : ℚ)
    (quarterEpochTime : Option ℚ) (nowSeconds : ℚ) (blockHeight : ℤ)
    (previousRetarget : ℚ) (network : String) (latestBlockTimestamp : ℚ)
    (blocksCache : List Blk) (d : DifficultyAdjustment)
    (hd : calcDifficultyAdjustment DATime quarterEpochTime nowSeconds blockHeight
        previousRetarget network latestBlockTimestamp blocksCache = .ok d) :
    (blockHeight < getActivationHeight network →
      -75 ≤ d.difficultyChange ∧ d.difficultyChange ≤ 300) ∧
    (getActivationHeight network ≤ blockHeight →
      -33.34 ≤ d.difficultyChange ∧ d.difficultyChange ≤ 33.34) := by
  unfold calcDifficultyAdjustment at hd
  by_cases hlt : blockHeight < getActivationHeight network
  · rw [if_pos hlt, Except.ok.injEq] at hd
    subst hd
    refine ⟨fun _ => ?_, fun hge => absurd hlt (not_lt.mpr hge)⟩
    simp only [legacySnapshot]
    exact clampLegacy_mem _
  · rw [if_neg hlt] at hd
    push_neg at hlt
    split at hd
    · split at hd
      · exact Except.noConfusion hd
      · rw [Except.ok.injEq] at hd
        subst hd
        refine ⟨fun h => absurd h (not_lt.mpr hlt), fun _ => ?_⟩
        simp only [digishieldSnapshot]
        exact clampDigishield_mem _
    · rw [Except.ok.injEq] at hd
      subst hd
      refine ⟨fun h => absurd h (not_lt.mpr hlt), fun _ => ?_⟩
      simp only [digishieldSnapshot]
      constructor <;> norm_num

/-! ## Claim C7 -/

/-- Claim C7: in the per-block era, when the cache does not hold both a latest
and a previous block, the snapshot is produced without error and its
difficulty change is exactly 0. -/
theorem perBlockChange_zero_when_pair_missing (DATime : ℚ)
    (quarterEpochTime : Option ℚ) (nowSeconds : ℚ) (blockHeight : ℤ)
    (previousRetarget : ℚ) (network : String) (latestBlockTimestamp : ℚ)
    (blocksCache : List Blk)
    (hge : getActivationHeight network ≤ blockHeight)
    (hlen : blocksCache.length < 2) :
    ∃ d, calcDifficultyAdjustment DATime quarterEpochTime nowSeconds blockHeight
        previousRetarget network latestBlockTimestamp blocksCache = .ok d ∧
      d.difficultyChange = 0 := by
  have h1 : blocksCache.reverse.get? 1 = none := by
    rw [List.get?_eq_none]
    simp only [List.length_reverse]
    omega
  unfold calcDifficultyAdjustment
  rw [if_neg (not_lt.mpr hge), h1]
  cases h0 : blocksCache.reverse.get? 0 with
  | none => exact ⟨_, rfl, rfl⟩
  | some latestB => exact ⟨_, rfl, rfl⟩

/-- Claim C9 witness: mainnet at exactly the activation height 115000 with an
empty cache is per-block shaped. -/
theorem perBlock_shape_witness :
    getActivationHeight "mainnet" ≤ (115000 : ℤ) ∧
    calcDifficultyAdjustment 0 none 1000 115000 0 "mainnet" 990 [] =
      .ok (digishieldSnapshot 0 1000 115000 0 990 0) ∧
    ((digishieldSnapshot 0 1000 115000 0 990 0).progressPercent = 100 ∧
      (digishieldSnapshot 0 1000 115000 0 990 0).remainingBlocks = 1 ∧
      (digishieldSnapshot 0 1000 115000 0 990 0).expectedBlocks = 1 ∧
      (digishieldSnapshot 0 1000 115000 0 990 0).nextRetargetHeight =
        ((115000 : ℤ) : ℚ) + 1 ∧
      getActivationHeight "mainnet" =
        (if jsToLowerCase "mainnet" = "mainnet" ∨ jsToLowerCase "mainnet" = "main"
          then 115000 else 0)) :=
  ⟨by decide, rfl,
    perBlock_shape_of_activation_le_height 0 none 1000 115000 0 "mainnet" 990 []
      (digishieldSnapshot 0 1000 115000 0 990 0) (by decide) rfl⟩

/-- Claim C3 witness: a concrete mainnet per-block snapshot has `timeOffset`
at most 0 and exactly 0 off testnet. -/
theorem timeOffset_witness :
    calcDifficultyAdjustment 0 none 1000 115000 0 "mainnet" 990 [] =
      .ok (digishieldSnapshot 0 1000 115000 0 990 0) ∧
    ((digishieldSnapshot 0 1000 115000 0 990 0).timeOffset ≤ 0 ∧
      (jsToLowerCase "mainnet" ≠ "testnet" →
        (digishieldSnapshot 0 1000 115000 0 990 0).timeOffset = 0)) :=
  ⟨rfl, timeOffset_nonpos_and_zero_off_testnet 0 none 1000 115000 0 "mainnet" 990 []
    (digishieldSnapshot 0 1000 115000 0 990 0) rfl⟩

/-- Claim C4 witness: a concrete mainnet legacy-era snapshot has its
difficulty change clamped by era. -/
theorem difficultyChange_clamped_witness :
    calcDifficultyAdjustment 0 none 1000 0 0 "mainnet" 990 [] =
      .ok (legacySnapshot 0 none 1000 0 0 "mainnet" 990) ∧
    (((0 : ℤ) < getActivationHeight "mainnet" →
        -75 ≤ (legacySnapshot 0 none 1000 0 0 "mainnet" 990).difficultyChange ∧
          (legacySnapshot 0 none 1000 0 0 "mainnet" 990).difficultyChange ≤ 300) ∧
      (getActivationHeight "mainnet" ≤ (0 : ℤ) →
        -33.34 ≤ (legacySnapshot 0 none 1000 0 0 "mainnet" 990).difficultyChange ∧
          (legacySnapshot 0 none 1000 0 0 "mainnet" 990).difficultyChange ≤ 33.34)) :=
  ⟨rfl, difficultyChange_clamped_by_era 0 none 1000 0 0 "mainnet" 990 []
    (legacySnapshot 0 none 1000 0 0 "mainnet" 990) rfl⟩

/-- Claim C7 witness: per-block era with an empty cache yields the snapshot
with difficulty change 0. -/
theorem perBlockChange_zero_witness :
    getActivationHeight "mainnet" ≤ (115000 : ℤ) ∧ ([] : List Blk).length < 2 ∧
    ∃ d, calcDifficultyAdjustment 0 none 1000 115000 0 "mainnet" 990 [] = .ok d ∧
      d.difficultyChange = 0 :=
  ⟨by decide, by decide,
    perBlockChange_zero_when_pair_missing 0 none 1000 115000 0 "mainnet" 990 []
      (by decide) (by decide)⟩

/-! ## Claim C2 -/

/-- `0x04000002` (target 512) against `0x04000004` (target 1024): the new
target is twice as easy, a raw difficulty change of -50%. -/
theorem pct_512_to_1024 : pctChangeFromBits 67108866 67108868 = .ok (-50) := by
  have h1 : compactToTarget 67108866 = .ok 512 := rfl
  have h2 : compactToTarget 67108868 = .ok 1024 := rfl
  simp only [pctChangeFromBits, h1, h2]
  norm_num

/-- Claim C2 (amended): on mainnet at exactly the activation height 115000,
when the latest block's bits encode a target easier than the previous block's
by more than 33.34% raw (raw change below -33.34), the snapshot's per-block
difficulty change is the clamped bound -33.34 — the negative bound, not
+33.34. -/
theorem perBlockChange_clamped_down_at_activation (DATime : ℚ)
    (quarterEpochTime : Option ℚ)
    (nowSeconds previousRetarget latestBlockTimestamp : ℚ)
    (blocksCache : List Blk) (latestB prevB : Blk) (raw : ℚ)
    (hl : blocksCache.reverse.get? 0 = some latestB)
    (hp : blocksCache.reverse.get? 1 = some prevB)
    (hraw : pctChangeFromBits prevB.bits latestB.bits = .ok raw)
    (hlt : raw < -33.34) :
    calcDifficultyAdjustment DATime quarterEpochTime nowSeconds 115000
        previousRetarget "mainnet" latestBlockTimestamp blocksCache =
      .ok (digishieldSnapshot DATime nowSeconds 115000 previousRetarget
            latestBlockTimestamp (-33.34)) := by
  have hclamp : clampDigishield raw = -33.34 := by
    unfold clampDigishield DIGI_MAX_UP DIGI_MAX_DOWN
    rw [min_eq_left (by linarith), max_eq_right hlt.le]
  unfold calcDifficultyAdjustment
  rw [if_neg (by decide)]
  simp only [hl, hp, hraw, hclamp]

/-- Claim C2 counterexample: concrete mainnet scenario at height 115000 where
the latest target (1024) is easier than the previous one (512) by 50% raw,
beyond the 33.34% bound; the snapshot's difficulty change is -33.34 and in
particular is not the claimed +33.34. -/
theorem perBlockChange_easier_counterexample :
    pctChangeFromBits 67108866 67108868 = .ok (-50) ∧
    calcDifficultyAdjustment 0 none 1000 115000 0 "mainnet" 990
      [{ bits := 67108866, timestamp := 980 }, { bits := 67108868, timestamp := 990 }] =
      .ok (digishieldSnapshot 0 1000 115000 0 990 (-33.34)) ∧
    (digishieldSnapshot 0 1000 115000 0 990 (-33.34)).difficultyChange ≠ 33.34 := by
  refine ⟨pct_512_to_1024, ?_, ?_⟩
  · unfold calcDifficultyAdjustment
    rw [if_neg (by decide)]
    have hl : (([{ bits := 67108866, timestamp := 980 },
        { bits := 67108868, timestamp := 990 }] : List Blk)).reverse.get? 0 =
        some { bits := 67108868, timestamp := 990 } := rfl
    have hp : (([{ bits := 67108866, timestamp := 980 },
        { bits := 67108868, timestamp := 990 }] : List Blk)).reverse.get? 1 =
        some { bits := 67108866, timestamp := 980 } := rfl
    have hclamp : clampDigishield (-50) = -33.34 := by
      unfold clampDigishield DIGI_MAX_UP DIGI_MAX_DOWN
      rw [min_eq_left (by norm_num), max_eq_right (by norm_num)]
    simp only [hl, hp, pct_512_to_1024, hclamp]
  · simp only [digishieldSnapshot]
    norm_num

/-- Claim C2 witness: the amended theorem applied to the concrete
easier-by-50% scenario. -/
theorem perBlockChange_clamped_down_witness :
    (([{ bits := 67108866, timestamp := 980 },
        { bits := 67108868, timestamp := 990 }] : List Blk)).reverse.get? 0 =
      some { bits := 67108868, timestamp := 990 } ∧
    (([{ bits := 67108866, timestamp := 980 },
        { bits := 67108868, timestamp := 990 }] : List Blk)).reverse.get? 1 =
      some { bits := 67108866, timestamp := 980 } ∧
    pctChangeFromBits 67108866 67108868 = .ok (-50) ∧ ((-50 : ℚ) < -33.34) ∧
    calcDifficultyAdjustment 0 none 1000 115000 0 "mainnet" 990
      [{ bits := 67108866, timestamp := 980 }, { bits := 67108868, timestamp := 990 }] =
      .ok (digishieldSnapshot 0 1000 115000 0 990 (-33.34)) :=
  ⟨rfl, rfl, pct_512_to_1024, by norm_num,
    perBlockChange_clamped_down_at_activation 0 none 1000 0 990
      [{ bits := 67108866, timestamp := 980 }, { bits := 67108868, timestamp := 990 }]
      { bits := 67108868, timestamp := 990 } { bits := 67108866, timestamp := 980 }
      (-50) rfl rfl pct_512_to_1024 (by norm_num)⟩

/-! ## Claim C6 -/

/-- Claim C6: when the last difficulty-adjustment time or the previous
retarget percentage is absent, or the recent-blocks cache is empty, the API
wrapper returns the explicit unavailable result (`none`) without error. -/
theorem getDifficultyAdjustment_unavailable (s : ProviderState)
    (h : s.lastDifficultyAdjustmentTime = none ∨
      s.previousDifficultyRetarget = none ∨ s.blocksCache = []) :
    getDifficultyAdjustment s = .ok none := by
  unfold getDifficultyAdjustment
  rcases h with h | h | h
  · cases h0 : s.blocksCache.reverse.get? 0 <;> simp [h, h0]
  · cases h0 : s.blocksCache.reverse.get? 0 <;>
      cases h1 : s.lastDifficultyAdjustmentTime <;> simp [h, h0, h1]
  · simp [h]

/-- A provider state with the last difficulty-adjustment time missing. -/
def sampleUnavailableState : ProviderState :=
  { lastDifficultyAdjustmentTime := none
    previousDifficultyRetarget := some 0
    currentBlockHeight := some 5
    blocksCache := [{ bits := 67108866, timestamp := 0 }]
    quarterEpochBlockTime := none
    nowMs := 0
    network := "mainnet" }

/-- Claim C6 witness: a state missing the last adjustment time yields the
unavailable result. -/
theorem getDifficultyAdjustment_unavailable_witness :
    sampleUnavailableState.lastDifficultyAdjustmentTime = none ∧
    getDifficultyAdjustment sampleUnavailableState = .ok none :=
  ⟨rfl, getDifficultyAdjustment_unavailable sampleUnavailableState (Or.inl rfl)⟩

/-! ## Claim C10 -/

/-- Claim C10: in the legacy branch the epoch length 1 makes
`blocksInEpoch = 0` for every non-negative height, hence progress 0,
remaining blocks 1, the pre-cap average block interval is the 60-second
target, the 2015-index rule is unreachable, and the actual timespan always
uses the current time. -/
theorem legacy_epoch_degenerate (DATime : ℚ) (quarterEpochTime : Option ℚ)
    (nowSeconds : ℚ) (blockHeight : ℤ) (previousRetarget : ℚ) (network : String)
    (latestBlockTimestamp : ℚ) (blocksCache : List Blk) (d : DifficultyAdjustment)
    (h0 : 0 ≤ blockHeight)
    (hlt : blockHeight < getActivationHeight network)
    (hd : calcDifficultyAdjustment DATime quarterEpochTime nowSeconds blockHeight
        previousRetarget network latestBlockTimestamp blocksCache = .ok d) :
    legacyBlocksInEpoch blockHeight = 0 ∧
    d.progressPercent = 0 ∧
    d.remainingBlocks = 1 ∧
    legacyTimeAvgSecs (max 0 (nowSeconds - DATime)) (legacyBlocksInEpoch blockHeight) =
      BLOCK_SECONDS_TARGET ∧
    legacyBlocksInEpoch blockHeight ≠ 2015 ∧
    legacyActualTimespan DATime nowSeconds latestBlockTimestamp
      (legacyBlocksInEpoch blockHeight) = nowSeconds - DATime := by
  have hz := legacyBlocksInEpoch_eq_zero blockHeight
  unfold calcDifficultyAdjustment at hd
  rw [if_pos hlt, Except.ok.injEq] at hd
  subst hd
  refine ⟨hz, ?_, ?_, ?_, ?_, ?_⟩
  · simp only [legacySnapshot, hz]
    rw [if_pos h0]
    norm_num
  · simp only [legacySnapshot, hz]
    norm_num [EPOCH_BLOCK_LENGTH]
  · rw [hz]
    simp [legacyTimeAvgSecs]
  · rw [hz]
    norm_num
  · rw [hz]
    simp [legacyActualTimespan]

/-- Claim C10 witness: mainnet at pre-activation height 114999. -/
theorem legacy_epoch_degenerate_witness :
    (0 : ℤ) ≤ 114999 ∧ (114999 : ℤ) < getActivationHeight "mainnet" ∧
    calcDifficultyAdjustment 0 none 1000 114999 0 "mainnet" 990 [] =
      .ok (legacySnapshot 0 none 1000 114999 0 "mainnet" 990) ∧
    (legacyBlocksInEpoch 114999 = 0 ∧
      (legacySnapshot 0 none 1000 114999 0 "mainnet" 990).progressPercent = 0 ∧
      (legacySnapshot 0 none 1000 114999 0 "mainnet" 990).remainingBlocks = 1 ∧
      legacyTimeAvgSecs (max 0 (1000 - 0)) (legacyBlocksInEpoch 114999) =
        BLOCK_SECONDS_TARGET ∧
      legacyBlocksInEpoch 114999 ≠ 2015 ∧
      legacyActualTimespan 0 1000 990 (legacyBlocksInEpoch 114999) = 1000 - 0) :=
  ⟨by decide, by decide, rfl,
    legacy_epoch_degenerate 0 none 1000 114999 0 "mainnet" 990 []
      (legacySnapshot 0 none 1000 114999 0 "mainnet" 990) (by decide) (by decide) rfl⟩
